import Mathlib

/-!
Shallow embedding of the claims aggregation-and-filtering pipeline of the
insurance-fraud dashboard repository (files `mainapp.py`, `triy.py`, `thi.py`,
`sectry.py`, `firstapp.py`, `trydash.py`).

Dates are modelled as integer day numbers (the result of pandas
`pd.to_datetime(..., errors='coerce')`); a missing or unparseable date is
`Option.none`, mirroring `NaT`.  Records are Lean structures, dataframes are
lists of records, and the pandas column operations used by the dashboards
(filtering, group-by, sorting, top-N) are translated line by line into list
operations.  Rates are rational numbers; where the Python float computation can
produce `NaN` (0/0) the embedding returns `Option.none`.
-/

/-- Result of the tolerant date parse `pd.to_datetime(x, errors='coerce')`
applied to one raw cell: the cell is empty, is present but not a date, or
parses to a day number. -/
inductive DateCell
  | missing
  | unparseable
  | parsed (day : Int)
deriving DecidableEq

/-- Tolerant date coercion: unparseable or empty values become `none` (`NaT`)
rather than raising, exactly as `pd.to_datetime(..., errors='coerce')`. -/
def toDatetime : DateCell → Option Int
  | .parsed d => some d
  | _ => none

/-- One raw input row, before date coercion. -/
structure RawRow where
  dummyPolicyNo : String
  correspondenceState : Option String
  correspondenceCity : Option String
  correspondencePostcode : Option String
  channel : Option String
  policyStartRaw : DateCell
  dateOfDeathRaw : DateCell
  intimationRaw : DateCell
  fraudCategory : Option String
deriving DecidableEq

/-- One normalized claim record, after the date-coercion loop
(`mainapp.py` lines 311-312, `triy.py` lines 614-615, `sectry.py` 211-213). -/
structure ClaimRecord where
  dummyPolicyNo : String
  correspondenceState : Option String
  correspondenceCity : Option String
  correspondencePostcode : Option String
  channel : Option String
  policyStart : Option Int
  dateOfDeath : Option Int
  intimationDate : Option Int
  fraudCategory : Option String
deriving DecidableEq

/-- Normalization of one row: each date-like field goes through the tolerant
parse; the categorical fields are carried over unchanged. -/
def normalizeRow (r : RawRow) : ClaimRecord :=
  { dummyPolicyNo := r.dummyPolicyNo
    correspondenceState := r.correspondenceState
    correspondenceCity := r.correspondenceCity
    correspondencePostcode := r.correspondencePostcode
    channel := r.channel
    policyStart := toDatetime r.policyStartRaw
    dateOfDeath := toDatetime r.dateOfDeathRaw
    intimationDate := toDatetime r.intimationRaw
    fraudCategory := r.fraudCategory }

/-- Derived field `Policy_to_Death_Days = (Date of Death −
POLICYRISKCOMMENCEMENTDATE).dt.days` (`mainapp.py` line 319): `NaT`
propagates, so the count is `none` whenever either date is `none`. -/
def policyToDeathDays (r : ClaimRecord) : Option Int :=
  match r.dateOfDeath, r.policyStart with
  | some d, some p => some (d - p)
  | _, _ => none

/-- Derived field `Death_to_Intimation_Days = (INTIMATIONDATE − Date of
Death).dt.days` (`mainapp.py` line 320). -/
def deathToIntimationDays (r : ClaimRecord) : Option Int :=
  match r.intimationDate, r.dateOfDeath with
  | some i, some d => some (i - d)
  | _, _ => none

/-- Filter criteria as gathered from the UI widgets: state and channel
multi-selects (the widget value `None` and the empty list both mean "no
restriction" because the source guards with `if states and len(states) > 0`),
and an optional date range on the policy-start date. -/
structure FilterCriteria where
  states : List String
  channels : List String
  startDate : Option Int
  endDate : Option Int
deriving DecidableEq

/-- The filter engine of `triy.py` `filter_data` (lines 671-682), translated
step by step: `isin` on a `NaN` cell is `False`, and a comparison of `NaT`
with a bound is `False`, so records with a missing category or date are
dropped by the corresponding active filter. -/
def filterData (data : List ClaimRecord) (f : FilterCriteria) : List ClaimRecord :=
  let df := data
  let df := if f.states ≠ [] then
      df.filter (fun r => match r.correspondenceState with
        | some s => f.states.contains s
        | none => false)
    else df
  let df := if f.channels ≠ [] then
      df.filter (fun r => match r.channel with
        | some c => f.channels.contains c
        | none => false)
    else df
  let df := match f.startDate with
    | some sd => df.filter (fun r => match r.policyStart with
        | some d => decide (sd ≤ d)
        | none => false)
    | none => df
  let df := match f.endDate with
    | some ed => df.filter (fun r => match r.policyStart with
        | some d => decide (d ≤ ed)
        | none => false)
    | none => df
  df

/-- The date portion of `thi.py` `update_metrics` (lines 200-211): rows whose
policy-start date is `NaT` are dropped unconditionally by
`dropna(subset=['POLICYRISKCOMMENCEMENTDATE'])`, and the range is applied only
when `start_date and end_date` are both present. -/
def thiDateFilter (rows : List ClaimRecord) (startDate endDate : Option Int) :
    List ClaimRecord :=
  let df := rows.filter (fun r => r.policyStart.isSome)
  match startDate, endDate with
  | some sd, some ed =>
      df.filter (fun r => match r.policyStart with
        | some d => decide (sd ≤ d) && decide (d ≤ ed)
        | none => false)
  | _, _ => df

/-- C2: for any normalized record collection and filter criteria with empty
selected-state set, empty selected-channel set and no date range, the filter
engine returns the collection unchanged: an empty selection is a wildcard. -/
theorem filter_engine_empty_criteria_identity (R : List ClaimRecord) :
    filterData R ⟨[], [], none, none⟩ = R := rfl

/-- C4: the day-count fields are null whenever either input date is missing or
unparseable.  The first two conjuncts state this for the derived fields of a
normalized record; the last two connect the tolerant parse to normalization:
a missing or unparseable raw cell yields a `none` date, never a number. -/
theorem day_counts_null_on_missing_dates :
    (∀ r : ClaimRecord, r.policyStart = none ∨ r.dateOfDeath = none →
      policyToDeathDays r = none) ∧
    (∀ r : ClaimRecord, r.dateOfDeath = none ∨ r.intimationDate = none →
      deathToIntimationDays r = none) ∧
    (∀ c : DateCell, toDatetime c = none ↔ c = .missing ∨ c = .unparseable) ∧
    (∀ raw : RawRow,
      raw.dateOfDeathRaw = .missing ∨ raw.dateOfDeathRaw = .unparseable ∨
      raw.policyStartRaw = .missing ∨ raw.policyStartRaw = .unparseable →
      policyToDeathDays (normalizeRow raw) = none) := by
  refine ⟨?_, ?_, ?_, ?_⟩
  · intro r h
    rcases h with h | h <;> unfold policyToDeathDays <;> rw [h] <;>
      cases r.dateOfDeath <;> cases r.policyStart <;> rfl
  · intro r h
    rcases h with h | h <;> unfold deathToIntimationDays <;> rw [h] <;>
      cases r.intimationDate <;> cases r.dateOfDeath <;> rfl
  · intro c
    cases c <;> simp [toDatetime]
  · intro raw h
    unfold policyToDeathDays normalizeRow
    rcases h with h | h | h | h <;> rw [h] <;> simp [toDatetime]

/-- A concrete record whose policy-start date is present. -/
def okRec : ClaimRecord :=
  { dummyPolicyNo := "P2", correspondenceState := some "MH",
    correspondenceCity := some "Mumbai", correspondencePostcode := some "400001",
    channel := some "Agent", policyStart := some 5, dateOfDeath := some 156,
    intimationDate := some 165, fraudCategory := none }

/-- A concrete record whose policy-start date is missing. -/
def missingStartRec : ClaimRecord :=
  { dummyPolicyNo := "P1", correspondenceState := some "MH",
    correspondenceCity := some "Mumbai", correspondencePostcode := some "400001",
    channel := some "Direct", policyStart := none, dateOfDeath := none,
    intimationDate := none, fraudCategory := some "Fraudulent" }

/-- C4 (witness): the day counts of the concrete record with missing dates
are both null. -/
theorem day_counts_null_on_missing_dates_witness :
    policyToDeathDays missingStartRec = none ∧
    deathToIntimationDays missingStartRec = none :=
  ⟨day_counts_null_on_missing_dates.1 missingStartRec (Or.inl rfl),
   day_counts_null_on_missing_dates.2.1 missingStartRec (Or.inl rfl)⟩

/-- Membership in the filter engine's output when only the date bounds are
active, for all four bound configurations at once. -/
lemma mem_filterData_dates (R : List ClaimRecord) (r : ClaimRecord)
    (sd ed : Option Int) :
    r ∈ filterData R ⟨[], [], sd, ed⟩ ↔ r ∈ R ∧
      (∀ s, sd = some s → ∃ d, r.policyStart = some d ∧ s ≤ d) ∧
      (∀ e, ed = some e → ∃ d, r.policyStart = some d ∧ d ≤ e) := by
  cases sd <;> cases ed <;> cases hp : r.policyStart <;>
    simp [filterData, List.mem_filter, hp] <;> tauto

/-- C5 (counterexample): in `thi.py` a record with a missing policy-start date
is dropped even though no date-range filter is active, contradicting the claim
that such a record is excluded exactly when a range filter is active. -/
theorem thi_drops_missing_start_without_range :
    missingStartRec.policyStart = none ∧
    thiDateFilter [missingStartRec] none none = [] := ⟨rfl, rfl⟩

/-- C5 (amended): in `triy.py`'s filter engine the claimed semantics hold:
kept iff the policy-start date lies within the inclusive range when both
bounds are given, a single bound constrains only its side, and a record with a
missing date is excluded exactly when some bound is active.  In `thi.py`'s
metrics filter, records with a missing policy-start date are always dropped
(even with no active range), and the range applies only when both bounds are
present — a single bound constrains nothing. -/
theorem date_range_filter_semantics :
    (∀ (R : List ClaimRecord) (r : ClaimRecord) (sd ed : Int),
      r ∈ filterData R ⟨[], [], some sd, some ed⟩ ↔
        r ∈ R ∧ ∃ d, r.policyStart = some d ∧ sd ≤ d ∧ d ≤ ed) ∧
    (∀ (R : List ClaimRecord) (r : ClaimRecord) (sd : Int),
      r ∈ filterData R ⟨[], [], some sd, none⟩ ↔
        r ∈ R ∧ ∃ d, r.policyStart = some d ∧ sd ≤ d) ∧
    (∀ (R : List ClaimRecord) (r : ClaimRecord) (ed : Int),
      r ∈ filterData R ⟨[], [], none, some ed⟩ ↔
        r ∈ R ∧ ∃ d, r.policyStart = some d ∧ d ≤ ed) ∧
    (∀ R : List ClaimRecord, filterData R ⟨[], [], none, none⟩ = R) ∧
    (∀ (rows : List ClaimRecord) (sd ed : Option Int) (r : ClaimRecord),
      r.policyStart = none → r ∉ thiDateFilter rows sd ed) ∧
    (∀ (rows : List ClaimRecord) (sd : Int),
      thiDateFilter rows (some sd) none =
        rows.filter (fun r => r.policyStart.isSome)) ∧
    (∀ (rows : List ClaimRecord) (ed : Int),
      thiDateFilter rows none (some ed) =
        rows.filter (fun r => r.policyStart.isSome)) ∧
    (∀ (rows : List ClaimRecord) (r : ClaimRecord) (sd ed : Int),
      r ∈ thiDateFilter rows (some sd) (some ed) ↔
        r ∈ rows ∧ ∃ d, r.policyStart = some d ∧ sd ≤ d ∧ d ≤ ed) := by
  refine ⟨?_, ?_, ?_, fun R => rfl, ?_, fun rows sd => rfl, fun rows ed => rfl, ?_⟩
  · intro R r sd ed
    rw [mem_filterData_dates]
    cases hp : r.policyStart <;> simp [hp] <;> tauto
  · intro R r sd
    rw [mem_filterData_dates]
    cases hp : r.policyStart <;> simp [hp]
  · intro R r ed
    rw [mem_filterData_dates]
    cases hp : r.policyStart <;> simp [hp]
  · intro rows sd ed r h
    cases sd <;> cases ed <;> simp [thiDateFilter, List.mem_filter, h]
  · intro rows r sd ed
    cases hp : r.policyStart <;> simp [thiDateFilter, List.mem_filter, hp]

/-- C5 (witness): the amended semantics evaluated at concrete inputs — a
record dated day 5 passes the range [0, 100] in `triy.py`'s engine, and the
record with a missing date is rejected by `thi.py` under an active range. -/
theorem date_range_filter_semantics_witness :
    (okRec ∈ filterData [okRec] ⟨[], [], some 0, some 100⟩) ∧
    missingStartRec ∉ thiDateFilter [missingStartRec] (some 0) (some 1) := by
  constructor
  · exact (date_range_filter_semantics.1 [okRec] okRec 0 100).mpr
      ⟨by simp, 5, rfl, by norm_num, by norm_num⟩
  · exact date_range_filter_semantics.2.2.2.2.1 [missingStartRec]
      (some 0) (some 1) missingStartRec rfl

/-- Fraud flag of `mainapp.py` (line 367 and line 529): any non-null fraud
category counts, `filtered_df['Fraud Category'].notna()`. -/
def mainappIsFraud (r : ClaimRecord) : Bool := r.fraudCategory.isSome

/-- KPI fraud count of `mainapp.py` line 367:
`filtered_df['Fraud Category'].notna().sum()`. -/
def mainappFraudCases (df : List ClaimRecord) : Nat := df.countP mainappIsFraud

/-- Fraud flag of `triy.py` (lines 624, 696, 841):
`df['Fraud Category'].notna() & (df['Fraud Category'] != "No Fraud")`. -/
def triyIsFraud (r : ClaimRecord) : Bool :=
  match r.fraudCategory with
  | some s => decide (s ≠ "No Fraud")
  | none => false

/-- KPI fraud count of `triy.py` lines 696-699: length of the fraud-only
subset. -/
def triyFraudCases (df : List ClaimRecord) : Nat := (df.filter triyIsFraud).length

/-- Fraud flag of `thi.py` line 235:
`~filtered_df['Fraud Category'].isin(['No Fraud', 'NA', '', pd.NA, None])`;
a missing category is in the exclusion list, so it is never fraud. -/
def thiIsFraud (r : ClaimRecord) : Bool :=
  match r.fraudCategory with
  | some s => !(["No Fraud", "NA", ""].contains s)
  | none => false

/-- Fraud-cases KPI of `thi.py` line 236: number of rows passing the mask. -/
def thiFraudCases (df : List ClaimRecord) : Nat := df.countP thiIsFraud

/-- A concrete record carrying the "No Fraud" sentinel as its category. -/
def noFraudRec : ClaimRecord :=
  { dummyPolicyNo := "P3", correspondenceState := some "MH",
    correspondenceCity := some "Mumbai", correspondencePostcode := some "400001",
    channel := some "Agent", policyStart := some 0, dateOfDeath := some 10,
    intimationDate := some 12, fraudCategory := some "No Fraud" }

/-- C1 (counterexample): `mainapp.py`'s KPI fraud count uses `notna()` alone,
so a record whose fraud category is the sentinel string "No Fraud" IS counted
as fraud there, contradicting the claim that it never is. -/
theorem mainapp_counts_no_fraud_sentinel :
    noFraudRec.fraudCategory = some "No Fraud" ∧
    mainappFraudCases [noFraudRec] = 1 := ⟨rfl, rfl⟩

/-- C1 (amended): the fraud flag is variant-specific.  In `triy.py` a record
is fraud-flagged iff its category is present and differs from the "No Fraud"
sentinel; in `thi.py` iff present and outside {"No Fraud", "NA", ""}; but in
`mainapp.py` any present category counts as fraud, including the sentinel. -/
theorem fraud_flag_conventions :
    (∀ r : ClaimRecord, mainappIsFraud r = true ↔ ∃ s, r.fraudCategory = some s) ∧
    (∀ r : ClaimRecord, triyIsFraud r = true ↔
      ∃ s, r.fraudCategory = some s ∧ s ≠ "No Fraud") ∧
    (∀ r : ClaimRecord, thiIsFraud r = true ↔
      ∃ s, r.fraudCategory = some s ∧ s ≠ "No Fraud" ∧ s ≠ "NA" ∧ s ≠ "") ∧
    (∀ r : ClaimRecord, r.fraudCategory = some "No Fraud" →
      mainappIsFraud r = true ∧ triyIsFraud r = false ∧ thiIsFraud r = false) := by
  refine ⟨?_, ?_, ?_, ?_⟩
  · intro r; cases h : r.fraudCategory <;> simp [mainappIsFraud, h]
  · intro r; cases h : r.fraudCategory <;> simp [triyIsFraud, h]
  · intro r; cases h : r.fraudCategory <;> simp [thiIsFraud, h] <;> tauto
  · intro r h; simp [mainappIsFraud, triyIsFraud, thiIsFraud, h]

/-- C1 (witness): the three conventions evaluated at the concrete sentinel
record. -/
theorem fraud_flag_conventions_witness :
    mainappIsFraud noFraudRec = true ∧ triyIsFraud noFraudRec = false ∧
    thiIsFraud noFraudRec = false :=
  fraud_flag_conventions.2.2.2 noFraudRec rfl

/-- A raw uploaded table: the column names present in the spreadsheet and its
rows. -/
structure RawTable where
  cols : List String
  rows : List RawRow
deriving DecidableEq

/-- Required-column schema of `sectry.py` `upload_data` (lines 202-203). -/
def requiredColumns : List String :=
  ["POLICYRISKCOMMENCEMENTDATE", "Date of Death", "INTIMATIONDATE", "CHANNEL",
   "CORRESPONDENCESTATE", "Fraud Category", "Policy_Number"]

/-- The rename step of `sectry.py` lines 198-199:
`df.rename(columns={'Dummy Policy No': 'Policy_Number'})`. -/
def renameCols (cols : List String) : List String :=
  cols.map (fun c => if c = "Dummy Policy No" then "Policy_Number" else c)

/-- Structured ingestion failure carrying the missing required columns, as in
the message built at `sectry.py` lines 206-208. -/
structure SchemaError where
  missingColumns : List String
deriving DecidableEq

/-- The missing-column computation of `sectry.py` line 205:
`[col for col in required_columns if col not in df.columns]`. -/
def missingColumnsOf (t : RawTable) : List String :=
  requiredColumns.filter (fun c => !(renameCols t.cols).contains c)

/-- Ingestion of `sectry.py` `upload_data` (lines 179-253): if any required
column is missing the upload fails with the structured error naming them and
produces no records; otherwise every row is normalized. -/
def upload_data (t : RawTable) : Except SchemaError (List ClaimRecord) :=
  if missingColumnsOf t = [] then .ok (t.rows.map normalizeRow)
  else .error ⟨missingColumnsOf t⟩

/-- Sorted unique non-null values of a categorical column, as in
`sorted(df[col].dropna().unique())` (`mainapp.py` lines 323-324). -/
def sortedUnique (l : List String) : List String :=
  l.dedup.insertionSort (· ≤ ·)

/-- An upload as received by `mainapp.py` `parse_contents`: either bytes that
fail to decode or read as a spreadsheet, or a raw table. -/
inductive Upload
  | badFile
  | table (t : RawTable)
deriving DecidableEq

/-- Column access `df[col]`: raises `KeyError` when the column is absent. -/
def getColumn (t : RawTable) (c : String) : Except String Unit :=
  if t.cols.contains c then .ok () else .error ("KeyError: " ++ c)

/-- The try-block of `mainapp.py` `parse_contents` (lines 305-334): decode,
coerce the three date columns (each access can raise `KeyError`), derive the
day counts, then build the sorted dropdown options for state and channel. -/
def mainappIngest (u : Upload) :
    Except String (List ClaimRecord × List String × List String) :=
  match u with
  | .badFile => .error "file could not be decoded"
  | .table t => do
    let _ ← getColumn t "POLICYRISKCOMMENCEMENTDATE"
    let _ ← getColumn t "Date of Death"
    let _ ← getColumn t "INTIMATIONDATE"
    let recs := t.rows.map normalizeRow
    let _ ← getColumn t "CORRESPONDENCESTATE"
    let stateOptions := sortedUnique (recs.filterMap (fun r => r.correspondenceState))
    let _ ← getColumn t "CHANNEL"
    let channelOptions := sortedUnique (recs.filterMap (fun r => r.channel))
    .ok (recs, stateOptions, channelOptions)

/-- The outputs of `mainapp.py` `parse_contents` that carry data: the stored
dataset, the two dropdown option lists, and whether the dashboard is shown. -/
structure ParseOutput where
  processedData : Option (List ClaimRecord)
  stateOptions : List String
  channelOptions : List String
  dashboardShown : Bool
deriving DecidableEq

/-- `mainapp.py` `parse_contents` (lines 302-340): `None` contents and any
exception in the try-block both yield no stored data, empty option lists and
a hidden dashboard. -/
def parse_contents (u : Option Upload) : ParseOutput :=
  match u with
  | none => ⟨none, [], [], false⟩
  | some u =>
    match mainappIngest u with
    | .ok (recs, so, co) => ⟨some recs, so, co, true⟩
    | .error _ => ⟨none, [], [], false⟩

/-- C3: an ingestion input missing one or more required columns fails with a
schema error naming exactly the missing required columns (every absent
required column is named), and no records are ingested. -/
theorem schema_error_on_missing_columns :
    ∀ t : RawTable, missingColumnsOf t ≠ [] →
      upload_data t = .error ⟨missingColumnsOf t⟩ ∧
      (∀ c ∈ requiredColumns, c ∉ renameCols t.cols → c ∈ missingColumnsOf t) ∧
      (∀ rs, upload_data t ≠ .ok rs) := by
  intro t h
  refine ⟨by rw [upload_data, if_neg h], ?_, ?_⟩
  · intro c hc hnc
    simp only [missingColumnsOf, List.mem_filter, Bool.not_eq_true']
    exact ⟨hc, by simpa using hnc⟩
  · intro rs
    rw [upload_data, if_neg h]
    simp

/-- A concrete table carrying every required column except "CHANNEL". -/
def tableMissingChannel : RawTable :=
  { cols := ["POLICYRISKCOMMENCEMENTDATE", "Date of Death", "INTIMATIONDATE",
             "CORRESPONDENCESTATE", "Fraud Category", "Dummy Policy No"],
    rows := [] }

/-- C3 (witness): the table missing "CHANNEL" fails with a schema error that
names "CHANNEL", and no records are returned. -/
theorem schema_error_on_missing_columns_witness :
    upload_data tableMissingChannel = .error ⟨missingColumnsOf tableMissingChannel⟩ ∧
    "CHANNEL" ∈ missingColumnsOf tableMissingChannel ∧
    ∀ rs, upload_data tableMissingChannel ≠ .ok rs := by
  obtain ⟨h1, h2, h3⟩ := schema_error_on_missing_columns tableMissingChannel (by decide)
  exact ⟨h1, h2 "CHANNEL" (by decide) (by decide), h3⟩

/-- C10: ingestion is atomic on failure — whenever the try-block of
`parse_contents` raises, the stored dataset is `None`, the filter option
lists are empty and the dashboard stays hidden; no partial collection is
exposed. -/
theorem ingestion_atomic_on_failure :
    ∀ (u : Upload) (e : String), mainappIngest u = .error e →
      parse_contents (some u) = ⟨none, [], [], false⟩ := by
  intro u e h
  simp [parse_contents, h]

/-- C10 (witness): the upload missing the "CHANNEL" column raises `KeyError`
inside the try-block, and the callback output carries no data and empty
option lists. -/
theorem ingestion_atomic_on_failure_witness :
    parse_contents (some (.table tableMissingChannel)) = ⟨none, [], [], false⟩ :=
  ingestion_atomic_on_failure _ "KeyError: CHANNEL" (by rfl)

/-- Column maximum `series.max()` over a rational metric column: `none` on an
empty column, otherwise the fold of `max` over the values. -/
def seriesMax : List ℚ → Option ℚ
  | [] => none
  | x :: xs => some (xs.foldl max x)

/-- Column minimum `series.min()`. -/
def seriesMin : List ℚ → Option ℚ
  | [] => none
  | x :: xs => some (xs.foldl min x)

/-- Radar min-max normalization of one metric column, from `firstapp.py`
lines 122-125 and `trydash.py` lines 328-331:
`(radar_data[col] - min_val) / (max_val - min_val)`.  When the maximum equals
the minimum every numerator and the denominator are zero, and the float
division 0/0 yields `NaN`; the embedding returns `none` for that case. -/
def radarNormalize (values : List ℚ) : List (Option ℚ) :=
  match seriesMax values, seriesMin values with
  | some maxVal, some minVal =>
      values.map (fun v =>
        if maxVal = minVal then none
        else some ((v - minVal) / (maxVal - minVal)))
  | _, _ => []

/-- C6 (counterexample): for a metric column whose channels all share one
value, the radar normalization produces `NaN` (0/0) for every channel, not
the claimed fixed midpoint 0.5. -/
theorem radar_all_equal_gives_nan :
    radarNormalize [3, 3] = [none, none] ∧
    radarNormalize [3, 3] ≠ [some (1 / 2 : ℚ), some (1 / 2 : ℚ)] := by
  constructor <;> decide

/-- Folding `max` over a constant column returns the constant. -/
lemma foldl_max_const (xs : List ℚ) (x c : ℚ) (hx : x = c)
    (h : ∀ v ∈ xs, v = c) : xs.foldl max x = c := by
  induction xs generalizing x with
  | nil => simpa using hx
  | cons y ys ih =>
    simp only [List.foldl_cons]
    refine ih (max x y) ?_ (fun v hv => h v (by simp [hv]))
    rw [hx, h y (by simp), max_self]

/-- Folding `min` over a constant column returns the constant. -/
lemma foldl_min_const (xs : List ℚ) (x c : ℚ) (hx : x = c)
    (h : ∀ v ∈ xs, v = c) : xs.foldl min x = c := by
  induction xs generalizing x with
  | nil => simpa using hx
  | cons y ys ih =>
    simp only [List.foldl_cons]
    refine ih (min x y) ?_ (fun v hv => h v (by simp [hv]))
    rw [hx, h y (by simp), min_self]

/-- C6 (amended): each metric is min-max normalized as
`(value − min) / (max − min)` across the channels present, but when max
equals min the code performs 0/0 and every channel's normalized value is
undefined (`NaN`), not the 0.5 midpoint. -/
theorem radar_normalization_semantics :
    (∀ (vs : List ℚ) (c : ℚ), vs ≠ [] → (∀ v ∈ vs, v = c) →
      radarNormalize vs = List.replicate vs.length none) ∧
    (∀ (vs : List ℚ) (M m : ℚ), seriesMax vs = some M → seriesMin vs = some m →
      M ≠ m → radarNormalize vs = vs.map (fun v => some ((v - m) / (M - m)))) := by
  constructor
  · intro vs c hne hall
    obtain ⟨x, xs, rfl⟩ := List.exists_cons_of_ne_nil hne
    have hmax : seriesMax (x :: xs) = some c := by
      simpa [seriesMax] using
        foldl_max_const xs x c (hall x (by simp)) (fun v hv => hall v (by simp [hv]))
    have hmin : seriesMin (x :: xs) = some c := by
      simpa [seriesMin] using
        foldl_min_const xs x c (hall x (by simp)) (fun v hv => hall v (by simp [hv]))
    simp [radarNormalize, hmax, hmin, List.map_const', List.replicate_succ]
  · intro vs M m hM hm hne
    simp [radarNormalize, hM, hm, hne]

/-- C6 (witness): the amended semantics at concrete columns — a constant
column becomes all-`NaN`, a non-constant one follows the min-max formula. -/
theorem radar_normalization_semantics_witness :
    radarNormalize [3, 3] = List.replicate 2 none ∧
    radarNormalize [0, 2] = [0, 2].map (fun v => some ((v - 0) / (2 - 0))) := by
  constructor
  · simpa using radar_normalization_semantics.1 [3, 3] 3 (by decide) (by decide)
  · exact radar_normalization_semantics.2 [0, 2] 2 0 (by decide) (by decide)
      (by norm_num)

/-- Calendar month bucket `Date of Death.dt.to_period('M')` of a day number
(days since 1970-01-01), via the standard civil-from-days conversion. -/
def toPeriodM (day : Int) : Int × Int :=
  let z := day + 719468
  let era := z.ediv 146097
  let doe := z - era * 146097
  let yoe := (doe - doe.ediv 1460 + doe.ediv 36524 - doe.ediv 146096).ediv 365
  let y := yoe + era * 400
  let doy := doe - (365 * yoe + yoe.ediv 4 - yoe.ediv 100)
  let mp := (5 * doy + 2).ediv 153
  let m := mp + (if mp < 10 then 3 else -9)
  (y + (if m ≤ 2 then 1 else 0), m)

/-- Death-month key of a record: `NaT` dates yield no key, and pandas
`groupby` drops such rows from the monthly series. -/
def deathMonth (r : ClaimRecord) : Option (Int × Int) := r.dateOfDeath.map toPeriodM

/-- Chronological order on month buckets (pandas sorts group keys). -/
def monthLE (a b : Int × Int) : Prop := a.1 < b.1 ∨ (a.1 = b.1 ∧ a.2 ≤ b.2)

instance : DecidableRel monthLE := fun a b => by unfold monthLE; infer_instance

/-- One row of the monthly time series dataframe built at `mainapp.py`
lines 437-446. -/
structure MonthBucket where
  month : Int × Int
  totalClaims : Nat
  fraudClaims : Nat
  fraudRate : ℚ
deriving DecidableEq

/-- The records of one death-month group. -/
def monthGroup (rows : List ClaimRecord) (k : Int × Int) : List ClaimRecord :=
  rows.filter (fun r => decide (deathMonth r = some k))

/-- One aggregated month bucket: `Total_Claims` is the group size,
`Fraud_Claims` counts `Fraud Category.notna()` (the `mainapp.py` convention),
and `Fraud_Rate = Fraud_Claims / Total_Claims * 100`. -/
def mkMonthBucket (rows : List ClaimRecord) (k : Int × Int) : MonthBucket :=
  { month := k
    totalClaims := (monthGroup rows k).length
    fraudClaims := (monthGroup rows k).countP mainappIsFraud
    fraudRate := ((monthGroup rows k).countP mainappIsFraud : ℚ) /
      ((monthGroup rows k).length : ℚ) * 100 }

/-- The monthly time series of `mainapp.py` lines 434-446: group the filtered
records by death month (rows with no death date are dropped by `groupby`),
aggregate each bucket, keys in chronological order. -/
def timeSeries (rows : List ClaimRecord) : List MonthBucket :=
  (((rows.filterMap deathMonth).dedup).insertionSort monthLE).map (mkMonthBucket rows)

/-- Overall/per-group fraud rate with the explicit zero-total guard, from
`sectry.py` lines 463-466 (and line 286): initialized to 0 and only computed
where the total is positive. -/
def sectryFraudRate (fraudCases totalCases : Nat) : ℚ :=
  if 0 < totalCases then (fraudCases : ℚ) / (totalCases : ℚ) * 100 else 0

/-- C7: every bucket of the monthly time series has a positive total (a
group-by bucket always contains at least one record, so the division is never
0/0) and its fraud rate equals fraud count / total count × 100; and where the
code computes a rate that could face a zero total, the guarded rate is
exactly 0. -/
theorem monthly_time_series_fraud_rate :
    (∀ (rows : List ClaimRecord) (b : MonthBucket), b ∈ timeSeries rows →
      0 < b.totalClaims ∧
      b.fraudRate = (b.fraudClaims : ℚ) / (b.totalClaims : ℚ) * 100) ∧
    (∀ fraudCases : Nat, sectryFraudRate fraudCases 0 = 0) := by
  constructor
  · intro rows b hb
    simp only [timeSeries, List.mem_map] at hb
    obtain ⟨k, hk, rfl⟩ := hb
    have hk2 : k ∈ rows.filterMap deathMonth :=
      List.mem_dedup.mp ((List.mem_insertionSort monthLE).mp hk)
    obtain ⟨r, hr, hrk⟩ := List.mem_filterMap.mp hk2
    have hmem : r ∈ monthGroup rows k :=
      List.mem_filter.mpr ⟨hr, by simp [hrk]⟩
    exact ⟨List.length_pos_of_mem hmem, rfl⟩
  · intro fraudCases
    simp [sectryFraudRate]

/-- C7 (witness): the time series over one record dated day 156 (June 1970)
has the bucket (1970, 6) with a positive total and the stated rate. -/
theorem monthly_time_series_fraud_rate_witness :
    0 < (mkMonthBucket [okRec] (1970, 6)).totalClaims ∧
    (mkMonthBucket [okRec] (1970, 6)).fraudRate =
      ((mkMonthBucket [okRec] (1970, 6)).fraudClaims : ℚ) /
        ((mkMonthBucket [okRec] (1970, 6)).totalClaims : ℚ) * 100 :=
  monthly_time_series_fraud_rate.1 [okRec] _ (by
    rw [show timeSeries [okRec] = [mkMonthBucket [okRec] (1970, 6)] from rfl]
    exact List.mem_singleton_self _)

/-- Descending-count order used by the top-N charts:
`sort_values(by='Count', ascending=False)` / `nlargest(10, 'Count')`
(`mainapp.py` line 531, `triy.py` line 952). -/
def byCountDesc (a b : String × Nat) : Prop := b.2 ≤ a.2

instance : DecidableRel byCountDesc := fun a b => Nat.decLe b.2 a.2

instance : IsTotal (String × Nat) byCountDesc :=
  ⟨fun a b => Nat.le_total b.2 a.2⟩

instance : IsTrans (String × Nat) byCountDesc :=
  ⟨fun _ _ _ hab hbc => le_trans hbc hab⟩

/-- Top-N aggregation: sort the (group, count) pairs by count descending and
take the first N, as in
`fraud_counts.sort_values(by='Fraud Count', ascending=False).head(10)`. -/
def topN (n : Nat) (groups : List (String × Nat)) : List (String × Nat) :=
  (groups.insertionSort byCountDesc).take n

/-- C8: Top-N with N = 10 is idempotent, and when at most N groups exist the
result is a permutation of the input (all groups are returned). -/
theorem topn_idempotent :
    (∀ X : List (String × Nat), topN 10 (topN 10 X) = topN 10 X) ∧
    (∀ X : List (String × Nat), X.length ≤ 10 → List.Perm (topN 10 X) X) := by
  constructor
  · intro X
    unfold topN
    have hs : List.Sorted byCountDesc (X.insertionSort byCountDesc) :=
      List.sorted_insertionSort byCountDesc X
    have hts : List.Sorted byCountDesc ((X.insertionSort byCountDesc).take 10) :=
      List.Pairwise.sublist (List.take_sublist _ _) hs
    rw [List.Sorted.insertionSort_eq hts, List.take_take, Nat.min_self]
  · intro X h
    unfold topN
    rw [List.take_of_length_le (by rw [List.length_insertionSort]; exact h)]
    exact List.perm_insertionSort byCountDesc X

/-- C8 (witness): at a concrete two-group input, Top-10 returns all groups
(as a permutation) and applying it twice changes nothing. -/
theorem topn_idempotent_witness :
    topN 10 (topN 10 [("a", 5), ("b", 9)]) = topN 10 [("a", 5), ("b", 9)] ∧
    List.Perm (topN 10 [("a", 5), ("b", 9)]) [("a", 5), ("b", 9)] :=
  ⟨topn_idempotent.1 [("a", 5), ("b", 9)],
   topn_idempotent.2 [("a", 5), ("b", 9)] (by decide)⟩

/-- Total-policies KPI of `thi.py` line 229: the number of DISTINCT policy
identifiers, `filtered_df['Dummy Policy No'].nunique()`. -/
def thiTotalPolicies (rows : List ClaimRecord) : Nat :=
  (rows.map (fun r => r.dummyPolicyNo)).dedup.length

/-- Fraud-rate KPI of `thi.py` line 238:
`(fraud_cases / total_policies * 100) if total_policies > 0 else 0` — the
denominator is the distinct-policy count while the numerator counts rows. -/
def thiFraudRate (rows : List ClaimRecord) : ℚ :=
  if 0 < thiTotalPolicies rows then
    (thiFraudCases rows : ℚ) / (thiTotalPolicies rows : ℚ) * 100
  else 0

/-- Two rows sharing one policy identifier, both fraud-flagged. -/
def dupRecA : ClaimRecord :=
  { dummyPolicyNo := "P1", correspondenceState := some "MH",
    correspondenceCity := some "Mumbai", correspondencePostcode := some "400001",
    channel := some "Agent", policyStart := some 0, dateOfDeath := some 10,
    intimationDate := some 12, fraudCategory := some "Fraudulent" }

/-- Second row with the same policy identifier. -/
def dupRecB : ClaimRecord :=
  { dummyPolicyNo := "P1", correspondenceState := some "MH",
    correspondenceCity := some "Pune", correspondencePostcode := some "411001",
    channel := some "Direct", policyStart := some 1, dateOfDeath := some 11,
    intimationDate := some 13, fraudCategory := some "Suspicious" }

/-- C9: in `thi.py` the total-policies KPI counts distinct policy identifiers
while the fraud-cases KPI counts fraud-flagged rows, so an input with
duplicated fraud-flagged policy identifiers reports a fraud rate above 100%:
here 1 distinct policy, 2 fraud rows, rate 200%. -/
theorem thi_fraud_rate_exceeds_100 :
    thiTotalPolicies [dupRecA, dupRecB] = 1 ∧
    thiFraudCases [dupRecA, dupRecB] = 2 ∧
    thiFraudRate [dupRecA, dupRecB] = 200 ∧
    (100 : ℚ) < thiFraudRate [dupRecA, dupRecB] := by
  have ht : thiTotalPolicies [dupRecA, dupRecB] = 1 := by decide
  have hf : thiFraudCases [dupRecA, dupRecB] = 2 := by decide
  have hr : thiFraudRate [dupRecA, dupRecB] = 200 := by
    unfold thiFraudRate
    rw [ht, hf]
    norm_num
  exact ⟨ht, hf, hr, by rw [hr]; norm_num⟩
